import Mathlib

/-!
Verification of the keepalive-printer repository: a shallow embedding of the
two source files (`src/keepalive.py`, the CLI engine, and `src/winservice.py`,
the Windows-service variant) together with theorems settling the frozen claims
about the spec.

Network effects are modelled by explicit parameters: whether a TCP connect
succeeds on a given port, what a tick's connect/send/read outcome is, and at
which point during a wait a stop request arrives.  Timestamps are natural
numbers.  Logging destinations (file handlers, event log) are irrelevant to
the claims; log *events* emitted by the loops are modelled where a claim
mentions them.
-/

namespace KeepalivePrinter

/-! ## Port discovery

`discover_printer_ports` appears in both files with the same fixed candidate
list.  `keepalive.py` lines 10-24 use `socket.create_connection` inside a
`try`/`except (socket.timeout, socket.error)`; `winservice.py` lines 14-30 use
`connect_ex` (an error code, 0 = connected) inside a bare `try`/`except`.  In
both, a failed port is simply skipped and scanning proceeds, so neither
version raises to its caller; the open ports are appended in candidate-list
order. -/

/-- The fixed candidate port list (`common_printer_ports` in both files). -/
def common_printer_ports : List Nat :=
  [9100, 631, 515, 721, 9101, 9102, 9103, 23, 80, 443]

/-- The scanning loop of `keepalive.py` `discover_printer_ports` (lines 16-22):
for each candidate port, if the TCP connect succeeds (modelled by `connectOk`)
append the port to the accumulator, otherwise record it closed and continue. -/
def discoverLoop (connectOk : Nat → Bool) : List Nat → List Nat → List Nat
  | [], open_ports => open_ports
  | p :: rest, open_ports =>
    if connectOk p then discoverLoop connectOk rest (open_ports ++ [p])
    else discoverLoop connectOk rest open_ports

/-- `keepalive.py` lines 10-24: scan the fixed candidate list, starting from an
empty accumulator. -/
def discover_printer_ports (connectOk : Nat → Bool) : List Nat :=
  discoverLoop connectOk common_printer_ports []

/-- The scanning loop of `winservice.py` `discover_printer_ports`
(lines 19-28): `connect_ex` returns an error code and the port is open iff
that code is 0; any exception is swallowed and the port skipped. -/
def svcDiscoverLoop (connect_ex : Nat → Int) : List Nat → List Nat → List Nat
  | [], open_ports => open_ports
  | p :: rest, open_ports =>
    if connect_ex p == 0 then svcDiscoverLoop connect_ex rest (open_ports ++ [p])
    else svcDiscoverLoop connect_ex rest open_ports

/-- `winservice.py` lines 14-30. -/
def discover_printer_ports_svc (connect_ex : Nat → Int) : List Nat :=
  svcDiscoverLoop connect_ex common_printer_ports []

lemma discoverLoop_eq_filter (connectOk : Nat → Bool) (l acc : List Nat) :
    discoverLoop connectOk l acc = acc ++ l.filter connectOk := by
  induction l generalizing acc with
  | nil => simp [discoverLoop]
  | cons p rest ih =>
    by_cases h : connectOk p <;> simp [discoverLoop, h, ih, List.filter_cons]

lemma svcDiscoverLoop_eq_filter (connect_ex : Nat → Int) (l acc : List Nat) :
    svcDiscoverLoop connect_ex l acc = acc ++ l.filter (fun p => connect_ex p == 0) := by
  induction l generalizing acc with
  | nil => simp [svcDiscoverLoop]
  | cons p rest ih =>
    by_cases h : connect_ex p == 0 <;> simp [svcDiscoverLoop, h, ih, List.filter_cons]

/-- C5: for every connectivity environment, `discover_printer_ports` returns
exactly the open subset of the fixed candidate list in candidate-list order
(both the CLI and the service variant); a failed connect on one port never
prevents the remaining candidates from being scanned, and the function is
total (never raises).  Concretely, for a target open only on ports 631 and
9100 the result is `[9100, 631]`. -/
theorem discover_ports_is_ordered_filter :
    (∀ connectOk : Nat → Bool,
      discover_printer_ports connectOk = common_printer_ports.filter connectOk) ∧
    (∀ connect_ex : Nat → Int,
      discover_printer_ports_svc connect_ex =
        common_printer_ports.filter (fun p => connect_ex p == 0)) ∧
    discover_printer_ports (fun p => p == 631 || p == 9100) = [9100, 631] := by
  refine ⟨fun connectOk => ?_, fun connect_ex => ?_, ?_⟩
  · simpa using discoverLoop_eq_filter connectOk common_printer_ports []
  · simpa using svcDiscoverLoop_eq_filter connect_ex common_printer_ports []
  · rfl

/-! ## The CLI engine (`keepalive.py`, class `PrinterKeepAlive`)

The engine state mirrors the instance attributes set in `__init__`
(lines 57-76).  `start_time` is only assigned inside `run` (line 133); before
that the attribute does not exist, which `get_status` guards with `hasattr`
(lines 123-127) — we model the attribute as an `Option`.  Timestamps
(`datetime.now()`) are naturals supplied by the environment. -/

/-- Loop-level log events emitted by the two engines, keeping only the payload
a claim cares about. -/
inductive LogEvent where
  /-- `keepalive.py` line 146 (debug, tick succeeded). -/
  | debugTickOk
  /-- `winservice.py` line 146 (warning with the running failure count). -/
  | warnTickFailed (count : Nat)
  /-- `keepalive.py` lines 149-151: max failures reached, stopping. -/
  | errorMaxReachedStopping (max : Nat)
  /-- `winservice.py` line 149: max failures reached, will keep trying. -/
  | errorMaxReachedKeepTrying (max : Nat)
  /-- `keepalive.py` line 140: initial connection test failed, exiting. -/
  | errorStartupFailed
  /-- `winservice.py` line 132: initial test failed, service will retry. -/
  | errorStartupWillRetry
  /-- `keepalive.py` line 164 (service stopped). -/
  | infoServiceStopped
  deriving DecidableEq, Repr

/-- The network outcome of one `send_keepalive` attempt in `keepalive.py`
(lines 91-101): the connect can fail, the send can fail, and the optional
acknowledgment read either times out (caught by the inner
`except socket.timeout: pass`), returns bytes, or raises some other error
(propagating to the outer handler). -/
inductive TickOutcome where
  | connectError
  | sendError
  | readTimeout
  | readData (response : List Nat)
  | readError
  deriving DecidableEq, Repr

/-- Whether the outcome makes `send_keepalive` return `True`: it reaches
lines 103-105 exactly when connect and send succeed, regardless of the
acknowledgment read timing out or returning data. -/
def TickOutcome.success : TickOutcome → Bool
  | .connectError => false
  | .sendError => false
  | .readError => false
  | .readTimeout => true
  | .readData _ => true

/-- Instance attributes of `PrinterKeepAlive` (`keepalive.py` lines 57-65 plus
the late-bound `start_time`). -/
structure PrinterKeepAlive where
  printer_ip : String
  printer_port : Nat
  interval : Nat
  keepalive_command : List Nat
  running : Bool
  last_success : Option Nat
  consecutive_failures : Nat
  max_failures : Nat
  start_time : Option Nat
  deriving DecidableEq, Repr

/-- `PrinterKeepAlive.__init__` (lines 57-65): port defaults to 9100, interval
to 30; the keep-alive command is the SBPL sequence `1B 40 1B 41 1B 5A`;
`running` starts false, `last_success` `None`, `consecutive_failures` 0,
`max_failures` 10; `start_time` is not yet assigned. -/
def PrinterKeepAlive.init (printer_ip : String) (printer_port : Nat := 9100)
    (interval : Nat := 30) : PrinterKeepAlive :=
  { printer_ip := printer_ip
    printer_port := printer_port
    interval := interval
    keepalive_command := [0x1b, 0x40, 0x1b, 0x41, 0x1b, 0x5a]
    running := false
    last_success := none
    consecutive_failures := 0
    max_failures := 10
    start_time := none }

/-- `PrinterKeepAlive.send_keepalive` (lines 89-112): on connect+send success
— including a timed-out acknowledgment read — set `last_success` to the
current time, reset `consecutive_failures` to 0 and return `True`; on any
exception (connect, send, or a non-timeout read error caught by the outer
handler) increment `consecutive_failures`, log a warning and return `False`. -/
def PrinterKeepAlive.send_keepalive (s : PrinterKeepAlive) (o : TickOutcome)
    (now : Nat) : Bool × PrinterKeepAlive :=
  match o with
  | .connectError =>
    (false, { s with consecutive_failures := s.consecutive_failures + 1 })
  | .sendError =>
    (false, { s with consecutive_failures := s.consecutive_failures + 1 })
  | .readError =>
    (false, { s with consecutive_failures := s.consecutive_failures + 1 })
  | .readTimeout =>
    (true, { s with last_success := some now, consecutive_failures := 0 })
  | .readData _ =>
    (true, { s with last_success := some now, consecutive_failures := 0 })

/-- The dictionary returned by `get_status` (lines 114-128).  `last_success`
is rendered with `isoformat` and `uptime` as `str(now - start_time)` in the
source; both renderings are injective on our timestamps so we keep the
underlying values. -/
structure Status where
  running : Bool
  printer_ip : String
  last_success : Option Nat
  consecutive_failures : Nat
  uptime : Option Nat
  deriving DecidableEq, Repr

/-- `PrinterKeepAlive.get_status` (lines 114-128): total on every state; the
`hasattr(self, "start_time")` guard is the `Option.map` on `start_time`. -/
def PrinterKeepAlive.get_status (s : PrinterKeepAlive) (now : Nat) : Status :=
  { running := s.running
    printer_ip := s.printer_ip
    last_success := s.last_success
    consecutive_failures := s.consecutive_failures
    uptime := s.start_time.map (fun t => now - t) }

/-- `PrinterKeepAlive.stop` (lines 166-168): set `running` to `False`. -/
def PrinterKeepAlive.stop (s : PrinterKeepAlive) : PrinterKeepAlive :=
  { s with running := false }

/-- One iteration of the `while self.running` loop of `run` (lines 143-161),
as seen by the loop: the tick's network outcome, the timestamp the tick would
record, and whether a concurrent `stop()` call lands before the next
loop-condition check (during the `time.sleep`). -/
structure TickEvent where
  outcome : TickOutcome
  now : Nat
  stopRequested : Bool
  deriving DecidableEq, Repr

/-- Result of running the loop body of `run` over a finite trace of tick
events: either the loop exited (condition false, or `break` at the failure
threshold), or the trace ran out with the loop still live. -/
inductive LoopResult where
  | exited (s : PrinterKeepAlive) (logs : List LogEvent)
  | outOfTrace (s : PrinterKeepAlive) (logs : List LogEvent)
  deriving DecidableEq, Repr

def LoopResult.isExited : LoopResult → Bool
  | .exited _ _ => true
  | .outOfTrace _ _ => false

/-- The `while self.running` loop of `keepalive.py` `run` (lines 143-161):
each iteration calls `send_keepalive`; on success it logs a debug line; on
failure, if `consecutive_failures >= max_failures` it logs the stopping error
and `break`s; otherwise it sleeps for the full interval (during which a
concurrent `stop()` may clear `running`) and re-checks the condition.  The
`KeyboardInterrupt` and unexpected-exception handlers (lines 156-161) are
host-signal paths outside the traces modelled here. -/
def runLoop : PrinterKeepAlive → List TickEvent → List LogEvent → LoopResult
  | s, [], logs => if s.running then .outOfTrace s logs else .exited s logs
  | s, e :: rest, logs =>
    if s.running then
      let r := s.send_keepalive e.outcome e.now
      if r.1 then
        runLoop (if e.stopRequested then r.2.stop else r.2) rest
          (logs ++ [.debugTickOk])
      else if r.2.max_failures ≤ r.2.consecutive_failures then
        .exited r.2 (logs ++ [.errorMaxReachedStopping r.2.max_failures])
      else
        runLoop (if e.stopRequested then r.2.stop else r.2) rest logs
    else .exited s logs

/-- `PrinterKeepAlive.run` (lines 130-164): set `running := True` and
`start_time`, run the initial connection test (`connectTestOk` models
`test_connection()`, lines 78-87) and on failure log the error and return
early — note this early return does not reset `running`.  Otherwise run the
loop; when the loop exits, set `running := False` and log the stop. -/
def PrinterKeepAlive.run (s : PrinterKeepAlive) (startNow : Nat)
    (connectTestOk : Bool) (events : List TickEvent) :
    PrinterKeepAlive × List LogEvent :=
  let s1 := { s with running := true, start_time := some startNow }
  if connectTestOk then
    match runLoop s1 events [] with
    | .exited s2 logs => ({ s2 with running := false }, logs ++ [.infoServiceStopped])
    | .outOfTrace s2 logs => (s2, logs)
  else (s1, [.errorStartupFailed])

/-! ## The service engine (`winservice.py`, class `PrinterKeepAliveService`)

The service variant keeps a `hWaitStop` Windows event and an `is_running`
flag; `SvcStop` (lines 83-87) clears the flag and signals the event.  Its
`send_keepalive` (lines 99-111) performs no acknowledgment read and records
no success timestamp.  The waits in `main` (lines 134-157) are
`WaitForSingleObject` calls on the stop event. -/

/-- What the device does on one service tick: whether the connect succeeds,
whether `sendall` of the full payload succeeds, and whatever response bytes
the device would emit (which `winservice.py` never reads). -/
structure DeviceBehavior where
  connectOk : Bool
  sendOk : Bool
  response : List Nat
  deriving DecidableEq, Repr

/-- Instance attributes of `PrinterKeepAliveService` (`winservice.py`
lines 40-51); `stopEventSet` models the `hWaitStop` event's signalled
state. -/
structure PrinterKeepAliveService where
  printer_ip : String
  printer_port : Nat
  interval : Nat
  keepalive_command : List Nat
  max_failures : Nat
  consecutive_failures : Nat
  is_running : Bool
  stopEventSet : Bool
  deriving DecidableEq, Repr

/-- `PrinterKeepAliveService.__init__` (lines 40-72): fixed configuration
(ip 192.168.1.27, port 9100, interval 30, max_failures 10), `is_running`
true, event unsignalled; then if the initial `test_connection()` (modelled by
`initTestOk`) fails, auto-discovery runs and the first open port, if any,
replaces the default port. -/
def PrinterKeepAliveService.init (initTestOk : Bool) (connect_ex : Nat → Int) :
    PrinterKeepAliveService :=
  let base : PrinterKeepAliveService :=
    { printer_ip := "192.168.1.27"
      printer_port := 9100
      interval := 30
      keepalive_command := [0x1b, 0x40, 0x1b, 0x41, 0x1b, 0x5a]
      max_failures := 10
      consecutive_failures := 0
      is_running := true
      stopEventSet := false }
  if initTestOk then base
  else
    match discover_printer_ports_svc connect_ex with
    | [] => base
    | p :: _ => { base with printer_port := p }

/-- `PrinterKeepAliveService.get_retry_delay` (lines 74-81): the interval for
at most 3 consecutive failures, twice the interval for at most 6, four times
otherwise. -/
def PrinterKeepAliveService.get_retry_delay (s : PrinterKeepAliveService) : Nat :=
  if s.consecutive_failures ≤ 3 then s.interval
  else if s.consecutive_failures ≤ 6 then s.interval * 2
  else s.interval * 4

/-- `PrinterKeepAliveService.SvcStop` (lines 83-87): clear `is_running` and
signal the stop event. -/
def PrinterKeepAliveService.svcStop (s : PrinterKeepAliveService) :
    PrinterKeepAliveService :=
  { s with is_running := false, stopEventSet := true }

/-- `PrinterKeepAliveService.send_keepalive` (lines 99-111): open a
connection and send the payload; on success reset `consecutive_failures` to 0
and return `True`; on any exception increment it, log, and return `False`.
There is no read and no recorded timestamp — the device's response bytes are
never examined. -/
def PrinterKeepAliveService.send_keepalive (s : PrinterKeepAliveService)
    (d : DeviceBehavior) : Bool × PrinterKeepAliveService :=
  if d.connectOk then
    if d.sendOk then (true, { s with consecutive_failures := 0 })
    else (false, { s with consecutive_failures := s.consecutive_failures + 1 })
  else (false, { s with consecutive_failures := s.consecutive_failures + 1 })

/-- One iteration of the service loop: the device's behavior on this tick and
whether the stop event is signalled during the timed inter-tick wait. -/
structure SvcTickEvent where
  device : DeviceBehavior
  stopDuringWait : Bool
  deriving DecidableEq, Repr

/-- Result of the service loop over a finite trace. -/
inductive SvcLoopResult where
  | exited (s : PrinterKeepAliveService) (logs : List LogEvent)
  | outOfTrace (s : PrinterKeepAliveService) (logs : List LogEvent)
  deriving DecidableEq, Repr

def SvcLoopResult.isOutOfTrace : SvcLoopResult → Bool
  | .exited _ _ => false
  | .outOfTrace _ _ => true

def SvcLoopResult.logs : SvcLoopResult → List LogEvent
  | .exited _ logs => logs
  | .outOfTrace _ logs => logs

/-- The `while self.is_running` loop of `winservice.py` `main`
(lines 134-161): check the loop condition, then poll the stop event with a
zero timeout (lines 136-140, `break` if signalled); call `send_keepalive`; on
success log debug, on failure log the warning with the failure count and —
when `consecutive_failures >= max_failures` — log the escalated error but do
not break; then wait `get_retry_delay()` seconds on the stop event and
`break` if it was signalled during the wait (a stop request also clears
`is_running`, per `SvcStop`).  The unexpected-exception handler
(lines 159-161) is outside the traces modelled here. -/
def svcLoop : PrinterKeepAliveService → List SvcTickEvent → List LogEvent →
    SvcLoopResult
  | s, [], logs => if s.is_running then .outOfTrace s logs else .exited s logs
  | s, e :: rest, logs =>
    if s.is_running then
      if s.stopEventSet then .exited s logs
      else
        let r := s.send_keepalive e.device
        let logs1 :=
          if r.1 then logs ++ [.debugTickOk]
          else if r.2.max_failures ≤ r.2.consecutive_failures then
            logs ++ [.warnTickFailed r.2.consecutive_failures,
                     .errorMaxReachedKeepTrying r.2.max_failures]
          else logs ++ [.warnTickFailed r.2.consecutive_failures]
        if e.stopDuringWait then .exited r.2.svcStop logs1
        else svcLoop r.2 rest logs1
    else .exited s logs

/-- `PrinterKeepAliveService.main` (lines 124-163): the initial connection
test failure is only logged — the loop proceeds to retry regardless. -/
def PrinterKeepAliveService.main (s : PrinterKeepAliveService)
    (initialTestOk : Bool) (events : List SvcTickEvent) : SvcLoopResult :=
  svcLoop s events (if initialTestOk then [] else [.errorStartupWillRetry])

/-! ## Wait primitives

The two engines wait between ticks with different primitives.  We model each
primitive's duration as a function of the nominal wait length and of the
offset at which a concurrent stop request arrives within the wait. -/

/-- `time.sleep(self.interval)` (`keepalive.py` line 154): a plain sleep
always blocks for the full interval — a concurrent `stop()` call at offset
`tStopReq` inside the wait does not shorten it (the cleared `running` flag is
only observed at the next loop-condition check). -/
def sleepWaitDuration (interval : Nat) (_tStopReq : Nat) : Nat := interval

/-- `win32event.WaitForSingleObject(self.hWaitStop, delay)` (`winservice.py`
lines 153-157): a timed wait on the stop event returns as soon as the event
is signalled (offset `tStopReq`, if any) or when the timeout elapses,
whichever comes first. -/
def eventWaitDuration (delay : Nat) (tStopReq : Option Nat) : Nat :=
  match tStopReq with
  | none => delay
  | some t => min t delay

/-! ## Helper lemmas -/

/-- The failure counter after one `keepalive.py` tick: 0 on success,
incremented by exactly one on failure. -/
lemma send_keepalive_cf (s : PrinterKeepAlive) (o : TickOutcome) (now : Nat) :
    ((s.send_keepalive o now).2).consecutive_failures =
      if o.success then 0 else s.consecutive_failures + 1 := by
  cases o <;> rfl

/-- A stopped engine makes the loop exit immediately, whatever the remaining
trace: the loop never resurrects `running`. -/
lemma runLoop_not_running (s : PrinterKeepAlive) (events : List TickEvent)
    (logs : List LogEvent) (h : s.running = false) :
    runLoop s events logs = .exited s logs := by
  cases events <;> simp [runLoop, h]

/-- The service loop's `send_keepalive` changes only the failure counter. -/
lemma svc_send_keepalive_frame (s : PrinterKeepAliveService) (d : DeviceBehavior) :
    (s.send_keepalive d).2 =
      { s with consecutive_failures := ((s.send_keepalive d).2).consecutive_failures } := by
  unfold PrinterKeepAliveService.send_keepalive
  by_cases hc : d.connectOk <;> by_cases hs : d.sendOk <;> simp [hc, hs]

/-! ## Claims -/

/-- C1: the backoff delay of the service engine is `base_interval` times 1
for at most 3 consecutive failures, times 2 for 4 to 6, times 4 above 6; it
reads only the current failure count (and the static interval), so with the
counter at 0 — as after any success — the delay is exactly the base
interval, and immediately after a successful `send_keepalive` the next delay
is the base interval. -/
theorem get_retry_delay_backoff (s : PrinterKeepAliveService)
    (response : List Nat) :
    s.get_retry_delay = s.interval *
      (if s.consecutive_failures ≤ 3 then 1
       else if s.consecutive_failures ≤ 6 then 2 else 4) ∧
    PrinterKeepAliveService.get_retry_delay
      { s with consecutive_failures := 0 } = s.interval ∧
    ((s.send_keepalive ⟨true, true, response⟩).2).get_retry_delay = s.interval := by
  refine ⟨?_, ?_, ?_⟩
  · unfold PrinterKeepAliveService.get_retry_delay
    by_cases h3 : s.consecutive_failures ≤ 3 <;>
      by_cases h6 : s.consecutive_failures ≤ 6 <;>
      simp [h3, h6, Nat.mul_comm]
  · simp [PrinterKeepAliveService.get_retry_delay]
  · simp [PrinterKeepAliveService.send_keepalive,
      PrinterKeepAliveService.get_retry_delay]

/-- C6: in `keepalive.py` `send_keepalive`, a timeout on the acknowledgment
read after a successful connect and send is not a failure: the call returns
`True`, resets `consecutive_failures` to 0 and sets `last_success` to the
current time. -/
theorem read_timeout_is_success (s : PrinterKeepAlive) (now : Nat) :
    s.send_keepalive .readTimeout now =
      (true, { s with last_success := some now, consecutive_failures := 0 }) := rfl

/-- C9: on a freshly constructed engine (no `run` yet), `get_status` is total
— the missing `start_time` attribute is the `none` branch — and reports
`running = false`, `consecutive_failures = 0`, `last_success = None` and
`uptime = None`. -/
theorem get_status_fresh (ip : String) (port itv now : Nat) :
    (PrinterKeepAlive.init ip port itv).get_status now =
      { running := false
        printer_ip := ip
        last_success := none
        consecutive_failures := 0
        uptime := none } := rfl

/-- C7: `stop()` is idempotent — one call already yields `running = false`,
a second call is a no-op, and any positive number of iterated calls equals a
single call; moreover a stopped engine's loop exits at once with no further
state change, whatever trace follows, so the loop's transition to the stopped
state happens exactly once. -/
theorem stop_idempotent :
    (∀ s : PrinterKeepAlive, s.stop.stop = s.stop) ∧
    (∀ (s : PrinterKeepAlive) (n : Nat), PrinterKeepAlive.stop^[n + 1] s = s.stop) ∧
    (∀ s : PrinterKeepAlive, s.stop.running = false) ∧
    (∀ (s : PrinterKeepAlive) (events : List TickEvent) (logs : List LogEvent),
      runLoop s.stop events logs = .exited s.stop logs) := by
  refine ⟨fun s => rfl, fun s n => ?_, fun s => rfl, fun s events logs => ?_⟩
  · rw [Function.iterate_succ_apply]
    exact Function.iterate_fixed rfl n
  · exact runLoop_not_running s.stop events logs rfl

/-- C10: the service variant's `send_keepalive` performs no acknowledgment
read: for any two device behaviors agreeing on connect and send success, the
returned flag and state are identical whatever response bytes the device
offers; and it records no success timestamp — the only field it touches is
`consecutive_failures`. -/
theorem svc_send_keepalive_ignores_response :
    (∀ (s : PrinterKeepAliveService) (d₁ d₂ : DeviceBehavior),
      d₁.connectOk = d₂.connectOk → d₁.sendOk = d₂.sendOk →
      s.send_keepalive d₁ = s.send_keepalive d₂) ∧
    (∀ (s : PrinterKeepAliveService) (d : DeviceBehavior),
      (s.send_keepalive d).2.printer_ip = s.printer_ip ∧
      (s.send_keepalive d).2.printer_port = s.printer_port ∧
      (s.send_keepalive d).2.interval = s.interval ∧
      (s.send_keepalive d).2.keepalive_command = s.keepalive_command ∧
      (s.send_keepalive d).2.max_failures = s.max_failures ∧
      (s.send_keepalive d).2.is_running = s.is_running ∧
      (s.send_keepalive d).2.stopEventSet = s.stopEventSet) := by
  constructor
  · intro s d₁ d₂ hc hs
    unfold PrinterKeepAliveService.send_keepalive
    rw [hc, hs]
  · intro s d
    unfold PrinterKeepAliveService.send_keepalive
    by_cases hc : d.connectOk <;> by_cases hs : d.sendOk <;> simp [hc, hs]

/-- Witness for C10 at a concrete state and devices: one device answers with
bytes, the other stays silent; both accept connect and send. -/
theorem svc_send_keepalive_ignores_response_witness :
    (PrinterKeepAliveService.init true (fun _ => 1)).send_keepalive
        ⟨true, true, [6]⟩ =
      (PrinterKeepAliveService.init true (fun _ => 1)).send_keepalive
        ⟨true, true, []⟩ :=
  svc_send_keepalive_ignores_response.1
    (PrinterKeepAliveService.init true (fun _ => 1))
    ⟨true, true, [6]⟩ ⟨true, true, []⟩ rfl rfl

/-! ## Claim C2: the failure counter over a trace of ticks -/

/-- A sequence of `send_keepalive` calls (`keepalive.py` lines 89-112), each
with its network outcome and timestamp, threading the engine state through. -/
def runTicks : PrinterKeepAlive → List (TickOutcome × Nat) → PrinterKeepAlive
  | s, [] => s
  | s, (o, now) :: rest => runTicks (s.send_keepalive o now).2 rest

/-- The number of failed ticks since the most recent successful one — the
whole trace when no tick succeeded.  This is the spec's reading of
`consecutive_failures`, computed directly on the outcome list. -/
def failuresSinceLastSuccess (l : List TickOutcome) : Nat :=
  (l.reverse.takeWhile (fun o => !o.success)).length

lemma runTicks_cf (outs : List (TickOutcome × Nat)) (s : PrinterKeepAlive) :
    (runTicks s outs).consecutive_failures =
      (outs.map Prod.fst).foldl
        (fun acc o => if o.success then 0 else acc + 1)
        s.consecutive_failures := by
  induction outs generalizing s with
  | nil => rfl
  | cons p rest ih =>
    obtain ⟨o, now⟩ := p
    rw [runTicks]
    rw [ih]
    simp [send_keepalive_cf]

lemma foldl_cf_eq_trailing (l : List TickOutcome) :
    l.foldl (fun acc o => if o.success then 0 else acc + 1) 0 =
      failuresSinceLastSuccess l := by
  induction l using List.reverseRecOn with
  | nil => rfl
  | append_singleton l a ih =>
    rw [List.foldl_append, List.foldl_cons, List.foldl_nil]
    unfold failuresSinceLastSuccess
    rw [List.reverse_append]
    by_cases h : a.success <;>
      simp_all [failuresSinceLastSuccess, List.takeWhile, h]

/-- C2: starting from a fresh engine, after any sequence of tick outcomes the
failure counter equals the number of failed ticks since the most recent
success (the whole history if none succeeded); per tick, a success resets it
to exactly 0 and a failure increments it by exactly 1 — in both the CLI
engine and the service variant — so it never decreases except to 0. -/
theorem consecutive_failures_counts_trailing :
    (∀ (ip : String) (port itv : Nat) (outs : List (TickOutcome × Nat)),
      (runTicks (PrinterKeepAlive.init ip port itv) outs).consecutive_failures =
        failuresSinceLastSuccess (outs.map Prod.fst)) ∧
    (∀ (s : PrinterKeepAlive) (o : TickOutcome) (now : Nat),
      ((s.send_keepalive o now).2).consecutive_failures =
        if o.success then 0 else s.consecutive_failures + 1) ∧
    (∀ (s : PrinterKeepAliveService) (d : DeviceBehavior),
      ((s.send_keepalive d).2).consecutive_failures =
        if d.connectOk && d.sendOk then 0 else s.consecutive_failures + 1) := by
  refine ⟨fun ip port itv outs => ?_, send_keepalive_cf, fun s d => ?_⟩
  · rw [runTicks_cf]
    exact foldl_cf_eq_trailing (outs.map Prod.fst)
  · unfold PrinterKeepAliveService.send_keepalive
    by_cases hc : d.connectOk <;> by_cases hs : d.sendOk <;> simp [hc, hs]

/-! ## Claim C3: behavior at the escalation threshold -/

lemma send_keepalive_fst (s : PrinterKeepAlive) (o : TickOutcome) (now : Nat) :
    (s.send_keepalive o now).1 = o.success := by
  cases o <;> rfl

lemma send_keepalive_max (s : PrinterKeepAlive) (o : TickOutcome) (now : Nat) :
    ((s.send_keepalive o now).2).max_failures = s.max_failures := by
  cases o <;> rfl

/-- The service loop never exits on its own: as long as no stop request
arrives (flag up, event unsignalled, no stop during any wait), the loop
consumes its whole trace and is still live, whatever the failure counter
does. -/
lemma svcLoop_no_stop (events : List SvcTickEvent) :
    ∀ (s : PrinterKeepAliveService) (logs : List LogEvent),
      s.is_running = true → s.stopEventSet = false →
      (∀ e ∈ events, e.stopDuringWait = false) →
      (svcLoop s events logs).isOutOfTrace = true := by
  induction events with
  | nil =>
    intro s logs hr he _
    simp [svcLoop, hr, SvcLoopResult.isOutOfTrace]
  | cons e rest ih =>
    intro s logs hr he hn
    have hne : e.stopDuringWait = false := hn e (List.mem_cons_self e rest)
    have hframe := svc_send_keepalive_frame s e.device
    simp only [svcLoop, hr, he, hne, if_true, if_false, Bool.false_eq_true]
    apply ih
    · rw [hframe]; exact hr
    · rw [hframe]; exact he
    · exact fun x hx => hn x (List.mem_cons_of_mem e hx)

/-- C3 counterexample: with a trace of connect failures and no stop request
anywhere, the CLI engine's loop (`keepalive.py` lines 143-164) exits on its
own once the failure counter reaches `max_failures` = 10 — the 11th event is
never attempted, `run` returns with the stopping escalation logged — so the
engine does not keep attempting indefinitely until an explicit stop
request. -/
theorem keepalive_loop_stops_at_threshold :
    (runLoop { PrinterKeepAlive.init "192.168.1.27" with running := true }
        (List.replicate 11 ⟨.connectError, 0, false⟩) []).isExited = true ∧
    ((PrinterKeepAlive.init "192.168.1.27").run 0 true
        (List.replicate 11 ⟨.connectError, 0, false⟩)).2 =
      [.errorMaxReachedStopping 10, .infoServiceStopped] ∧
    ((PrinterKeepAlive.init "192.168.1.27").run 0 true
        (List.replicate 11 ⟨.connectError, 0, false⟩)).1.running = false := by
  exact ⟨rfl, rfl, rfl⟩

/-- C3 amended: only the service variant (`winservice.py` `main`) keeps
attempting when `consecutive_failures` reaches `max_failures`: it logs the
escalated error and continues until an explicit stop request, never exiting
on its own.  The CLI engine (`keepalive.py` `run`) instead logs a stopping
error and breaks out of its loop as soon as a failed tick brings the counter
to `max_failures`. -/
theorem escalation_stops_only_cli_engine :
    (∀ (s : PrinterKeepAliveService) (events : List SvcTickEvent)
        (logs : List LogEvent),
      s.is_running = true → s.stopEventSet = false →
      (∀ e ∈ events, e.stopDuringWait = false) →
      (svcLoop s events logs).isOutOfTrace = true) ∧
    ((PrinterKeepAliveService.init true (fun _ => 1)).main true
        (List.replicate 11 ⟨⟨false, true, []⟩, false⟩)).isOutOfTrace = true ∧
    LogEvent.errorMaxReachedKeepTrying 10 ∈
      ((PrinterKeepAliveService.init true (fun _ => 1)).main true
        (List.replicate 11 ⟨⟨false, true, []⟩, false⟩)).logs ∧
    (∀ (s : PrinterKeepAlive) (e : TickEvent) (rest : List TickEvent)
        (logs : List LogEvent),
      s.running = true → e.outcome.success = false →
      s.max_failures ≤ s.consecutive_failures + 1 →
      runLoop s (e :: rest) logs =
        .exited (s.send_keepalive e.outcome e.now).2
          (logs ++ [.errorMaxReachedStopping s.max_failures])) := by
  refine ⟨fun s events logs => svcLoop_no_stop events s logs, by decide, by decide, ?_⟩
  intro s e rest logs hr hfail hmax
  have h1 : (s.send_keepalive e.outcome e.now).1 = false := by
    rw [send_keepalive_fst, hfail]
  have hcf : ((s.send_keepalive e.outcome e.now).2).consecutive_failures =
      s.consecutive_failures + 1 := by
    rw [send_keepalive_cf, hfail]; rfl
  have hm := send_keepalive_max s e.outcome e.now
  simp only [runLoop, hr, if_true, h1, hcf, hm, hmax, if_false,
    Bool.false_eq_true]

/-- Witness for C3's amended theorem: a concrete service state takes one
failing tick with no stop request and is still live, and a concrete CLI
engine at 9 failures exits its loop on the next failing tick. -/
theorem escalation_stops_only_cli_engine_witness :
    (svcLoop (PrinterKeepAliveService.init true (fun _ => 1))
        [⟨⟨false, false, []⟩, false⟩] []).isOutOfTrace = true ∧
    runLoop { PrinterKeepAlive.init "192.168.1.27" with
                running := true, consecutive_failures := 9 }
        [⟨.connectError, 3, false⟩] [] =
      .exited (({ PrinterKeepAlive.init "192.168.1.27" with
                    running := true,
                    consecutive_failures := 9 }).send_keepalive .connectError 3).2
        ([] ++ [.errorMaxReachedStopping
            ({ PrinterKeepAlive.init "192.168.1.27" with
                 running := true, consecutive_failures := 9 }).max_failures]) :=
  ⟨escalation_stops_only_cli_engine.1 _ _ _ rfl rfl (by decide),
   escalation_stops_only_cli_engine.2.2.2 _ _ _ _ rfl rfl (by decide)⟩

/-! ## Claim C4: strict-mode startup failure -/

/-- C4 (code bug): when the initial connectivity test fails, `run`
(`keepalive.py` lines 130-141) logs the startup error and returns early —
but it has already set `self.running = True` (line 132) and the early return
skips the `self.running = False` after the loop (line 163), so `get_status`
immediately after `run` returns reports `running = true`, not the
`running = false` the claim and spec require. -/
theorem strict_startup_leaves_running_true :
    (((PrinterKeepAlive.init "192.168.1.27").run 0 false []).1.get_status 7).running
      = true ∧
    ((PrinterKeepAlive.init "192.168.1.27").run 0 false []).2 =
      [.errorStartupFailed] := by
  exact ⟨rfl, rfl⟩

/-! ## Claim C8: stop latency and the inter-tick wait -/

/-- C8 counterexample: the CLI engine's inter-tick wait (`time.sleep`,
`keepalive.py` line 154) is an uninterruptible full-interval sleep: a stop
request arriving right at the start of a 30-unit wait still blocks for the
full 30 units, while the service's timed wait on the stop event
(`winservice.py` lines 153-157) would return immediately — so the wait is
not, in both engines, a timed wait on a cancellation primitive. -/
theorem keepalive_sleep_not_interruptible :
    sleepWaitDuration 30 0 = 30 ∧ eventWaitDuration 30 (some 0) = 0 := by
  decide

/-- C8 amended: in the service variant the inter-tick wait is a timed wait on
the stop event, ending at the stop request or at the timeout, whichever is
first, and a stop signalled during the wait makes the loop exit without
touching the rest of its trace.  In the CLI engine the wait is a plain sleep
that always lasts the full interval regardless of when `stop()` is called;
the cleared flag is observed at the next loop-condition check, so the loop
still exits within one tick — at most one in-flight network operation plus
one full inter-tick sleep after the request. -/
theorem stop_latency_bounds :
    (∀ delay t : Nat, eventWaitDuration delay (some t) ≤ delay ∧
      eventWaitDuration delay (some t) ≤ t) ∧
    (∀ interval t : Nat, sleepWaitDuration interval t = interval) ∧
    (∀ (s : PrinterKeepAlive) (e : TickEvent) (rest : List TickEvent)
        (logs : List LogEvent),
      e.stopRequested = true →
      runLoop s (e :: rest) logs = runLoop s [e] logs) ∧
    (∀ (s : PrinterKeepAliveService) (e : SvcTickEvent)
        (rest : List SvcTickEvent) (logs : List LogEvent),
      e.stopDuringWait = true →
      svcLoop s (e :: rest) logs = svcLoop s [e] logs) := by
  refine ⟨fun delay t => ⟨Nat.min_le_right t delay, Nat.min_le_left t delay⟩,
    fun interval t => rfl, ?_, ?_⟩
  · intro s e rest logs hstop
    by_cases hr : s.running
    · simp [runLoop, hr, hstop, PrinterKeepAlive.stop, runLoop_not_running]
    · rw [runLoop_not_running s (e :: rest) logs (Bool.eq_false_iff.mpr hr),
        runLoop_not_running s [e] logs (Bool.eq_false_iff.mpr hr)]
  · intro s e rest logs hstop
    by_cases hr : s.is_running
    · by_cases he : s.stopEventSet <;>
        simp only [svcLoop, hr, he, hstop, if_true, if_false,
          Bool.false_eq_true]
    · simp only [svcLoop, hr, if_false, Bool.false_eq_true]

/-- Witness for C8's amended theorem at concrete inputs: a running engine and
a running service each receive a stop during the first tick's wait, and the
rest of the trace is irrelevant. -/
theorem stop_latency_bounds_witness :
    runLoop { PrinterKeepAlive.init "192.168.1.27" with running := true }
        (⟨.readTimeout, 5, true⟩ :: [⟨.readTimeout, 6, false⟩]) [] =
      runLoop { PrinterKeepAlive.init "192.168.1.27" with running := true }
        [⟨.readTimeout, 5, true⟩] [] ∧
    svcLoop (PrinterKeepAliveService.init true (fun _ => 1))
        (⟨⟨true, true, []⟩, true⟩ :: [⟨⟨true, true, []⟩, false⟩]) [] =
      svcLoop (PrinterKeepAliveService.init true (fun _ => 1))
        [⟨⟨true, true, []⟩, true⟩] [] :=
  ⟨stop_latency_bounds.2.2.1 _ _ _ _ rfl, stop_latency_bounds.2.2.2 _ _ _ _ rfl⟩

end KeepalivePrinter
